import Mathlib

/-!
Verification of the `itk::SQLQuery` base class
(Source/itkSQLQuery.h, Source/itkSQLQuery.cxx).

The class is the abstract superclass of SQL query drivers.  Its observable
state is the stored query text `m_Query`, the `m_Active` flag and the
`m_Database` reference; its base-class operations are `SetQuery`, `GetQuery`,
the family of typed `BindParameter` overloads, the `vtkVariant` dispatching
`BindParameter`, `ClearParameterBindings`, `EscapeString` and the three
transaction methods.  All of those are embedded below as pure functions on an
explicit state record; diagnostics emitted through `itkErrorMacro` are
modelled as an explicit `Diagnostic` field of the result.
-/

set_option linter.unusedVariables false

namespace SQLQuerySpec

/-- The data members of `itk::SQLQuery` visible to the base-class operations:
`std::string m_Query`, `bool m_Active`, `SQLDatabase::Pointer m_Database`
(modelled as an optional opaque reference id; the constructor sets it NULL). -/
structure QueryState where
  m_Query : String
  m_Active : Bool
  m_Database : Option Nat
  deriving DecidableEq, Repr

/-- `SQLQuery::SQLQuery()`: `m_Database = NULL; m_Active = false;` and
`m_Query` is default-constructed to the empty string. -/
def SQLQueryNew : QueryState :=
  { m_Query := "", m_Active := false, m_Database := none }

/-- The diagnostics the base class can emit through `itkErrorMacro`:
the generic bound-parameter message of every typed overload and of
`ClearParameterBindings`, the dedicated `VTK_OBJECT` message of the variant
dispatcher, and the default-branch message that prints the variant's
numeric type code. -/
inductive Diagnostic where
  /-- "This database driver does not support bound parameters." -/
  | noBoundParams
  /-- "Variants of type VTK_OBJECT cannot be inserted into a database." -/
  | objectKindError
  /-- "Variants of type <code> are not currently supported by BindParameter." -/
  | unsupportedKind (typeCode : Nat)
  deriving DecidableEq, Repr

/-- The outcome of a bind-family call: the returned `bool`, the diagnostic
logged via `itkErrorMacro` (if any), and the post-state. -/
structure BindResult where
  ret : Bool
  diag : Option Diagnostic
  state : QueryState
  deriving DecidableEq, Repr

/-! ### Typed `BindParameter` overloads (itkSQLQuery.cxx lines 83-179)

Each body is `itkErrorMacro(<<"This database driver does not support bound
parameters."); return false;` and touches no data member.  Numeric payloads
are carried as `Nat` (unsigned widths) or `Int` (signed widths); `float` and
`double` payloads are carried opaquely as their bit patterns (`Nat`), since
the base class never inspects them. -/

/-- `BindParameter(int index, unsigned char value)`. -/
def bindParameterUnsignedChar (st : QueryState) (index : Int) (value : Nat) :
    BindResult :=
  { ret := false, diag := some Diagnostic.noBoundParams, state := st }

/-- `BindParameter(int index, signed char value)`. -/
def bindParameterSignedChar (st : QueryState) (index : Int) (value : Int) :
    BindResult :=
  { ret := false, diag := some Diagnostic.noBoundParams, state := st }

/-- `BindParameter(int index, unsigned short value)`. -/
def bindParameterUnsignedShort (st : QueryState) (index : Int) (value : Nat) :
    BindResult :=
  { ret := false, diag := some Diagnostic.noBoundParams, state := st }

/-- `BindParameter(int index, short value)`. -/
def bindParameterShort (st : QueryState) (index : Int) (value : Int) :
    BindResult :=
  { ret := false, diag := some Diagnostic.noBoundParams, state := st }

/-- `BindParameter(int index, unsigned int value)`. -/
def bindParameterUnsignedInt (st : QueryState) (index : Int) (value : Nat) :
    BindResult :=
  { ret := false, diag := some Diagnostic.noBoundParams, state := st }

/-- `BindParameter(int index, int value)`. -/
def bindParameterInt (st : QueryState) (index : Int) (value : Int) :
    BindResult :=
  { ret := false, diag := some Diagnostic.noBoundParams, state := st }

/-- `BindParameter(int index, unsigned long value)`. -/
def bindParameterUnsignedLong (st : QueryState) (index : Int) (value : Nat) :
    BindResult :=
  { ret := false, diag := some Diagnostic.noBoundParams, state := st }

/-- `BindParameter(int index, long value)`. -/
def bindParameterLong (st : QueryState) (index : Int) (value : Int) :
    BindResult :=
  { ret := false, diag := some Diagnostic.noBoundParams, state := st }

/-- `BindParameter(int index, vtkTypeUInt64 value)`. -/
def bindParameterUInt64 (st : QueryState) (index : Int) (value : Nat) :
    BindResult :=
  { ret := false, diag := some Diagnostic.noBoundParams, state := st }

/-- `BindParameter(int index, vtkTypeInt64 value)`. -/
def bindParameterInt64 (st : QueryState) (index : Int) (value : Int) :
    BindResult :=
  { ret := false, diag := some Diagnostic.noBoundParams, state := st }

/-- `BindParameter(int index, float value)` (payload carried as bit pattern). -/
def bindParameterFloat (st : QueryState) (index : Int) (value : Nat) :
    BindResult :=
  { ret := false, diag := some Diagnostic.noBoundParams, state := st }

/-- `BindParameter(int index, double value)` (payload carried as bit pattern). -/
def bindParameterDouble (st : QueryState) (index : Int) (value : Nat) :
    BindResult :=
  { ret := false, diag := some Diagnostic.noBoundParams, state := st }

/-- `BindParameter(int index, const char *value)` (null-terminated string). -/
def bindParameterCString (st : QueryState) (index : Int) (value : String) :
    BindResult :=
  { ret := false, diag := some Diagnostic.noBoundParams, state := st }

/-- `BindParameter(int index, const char *value, size_t length)`. -/
def bindParameterCStringLen (st : QueryState) (index : Int) (value : String)
    (length : Nat) : BindResult :=
  { ret := false, diag := some Diagnostic.noBoundParams, state := st }

/-- `BindParameter(int index, const std::string &value)`. -/
def bindParameterStdString (st : QueryState) (index : Int) (value : String) :
    BindResult :=
  { ret := false, diag := some Diagnostic.noBoundParams, state := st }

/-- `BindParameter(int index, const void *data, size_t length)` (blob). -/
def bindParameterBlob (st : QueryState) (index : Int) (bytes : List Nat)
    (length : Nat) : BindResult :=
  { ret := false, diag := some Diagnostic.noBoundParams, state := st }

/-- `SQLQuery::ClearParameterBindings()` (itkSQLQuery.cxx lines 181-185). -/
def clearParameterBindings (st : QueryState) : BindResult :=
  { ret := false, diag := some Diagnostic.noBoundParams, state := st }

/-! ### The dynamic value (`vtkVariant`)

`vtkVariant` is external to this repository; it is modelled here as the
closed tagged union the spec describes for the Dynamic Value (signed and
unsigned integers of the four widths, 32/64-bit floats, string, opaque byte
blob, an invalid "no value" marker), together with the plain-`char` and
object kinds that the dispatch switch in itkSQLQuery.cxx names explicitly
(`VTK_CHAR`, `VTK_OBJECT`).  The blob kind is modelled from the spec: the
spec's Dynamic Value includes an "opaque byte blob" kind, while the dispatch
switch in the source has no arm for it.  Float payloads are opaque bit
patterns, as above. -/
inductive vtkVariant where
  | invalid
  | ofString (s : String)
  | ofFloat (bits : Nat)
  | ofDouble (bits : Nat)
  | ofChar (c : Int)
  | ofUnsignedChar (v : Nat)
  | ofSignedChar (v : Int)
  | ofShort (v : Int)
  | ofUnsignedShort (v : Nat)
  | ofInt (v : Int)
  | ofUnsignedInt (v : Nat)
  | ofLong (v : Int)
  | ofUnsignedLong (v : Nat)
  | ofLongLong (v : Int)
  | ofUnsignedLongLong (v : Nat)
  | ofObject (oid : Nat)
  | ofBlob (bytes : List Nat) (length : Nat)
  deriving DecidableEq, Repr

/-- `vtkVariant::GetType()`: the VTK numeric type code of the held value
(`VTK_VOID` = 0, `VTK_CHAR` = 2, ..., `VTK_OBJECT` = 21).  The spec-modelled
blob kind has no VTK code; it is given the fresh code 30. -/
def vtkVariant.GetType : vtkVariant → Nat
  | .invalid => 0
  | .ofChar _ => 2
  | .ofUnsignedChar _ => 3
  | .ofShort _ => 4
  | .ofUnsignedShort _ => 5
  | .ofInt _ => 6
  | .ofUnsignedInt _ => 7
  | .ofLong _ => 8
  | .ofUnsignedLong _ => 9
  | .ofFloat _ => 10
  | .ofDouble _ => 11
  | .ofString _ => 13
  | .ofSignedChar _ => 15
  | .ofLongLong _ => 16
  | .ofUnsignedLongLong _ => 17
  | .ofObject _ => 21
  | .ofBlob _ _ => 30

/-- `SQLQuery::BindParameter(int index, vtkVariant data)`
(itkSQLQuery.cxx lines 187-227), with the `VTK_TYPE_USE_LONG_LONG` branch of
the preprocessor conditionals active (the usual modern build), so the 64-bit
kinds dispatch to the 64-bit typed overloads.  Invalid values return `true`
with no call ("binding nulls is a no-op"); each listed kind calls the typed
overload on the converted payload — the `VTK_CHAR` arm passes a plain `char`,
which C++ overload resolution routes to the `int` overload by integral
promotion, there being no plain-`char` overload; `VTK_OBJECT` fails with its
dedicated diagnostic; every remaining kind falls into the `default:` branch,
failing with the type-code diagnostic. -/
def bindParameterVariant (st : QueryState) (index : Int) (data : vtkVariant) :
    BindResult :=
  match data with
  | .invalid => { ret := true, diag := none, state := st }
  | .ofString s => bindParameterStdString st index s
  | .ofFloat b => bindParameterFloat st index b
  | .ofDouble b => bindParameterDouble st index b
  | .ofChar c => bindParameterInt st index c
  | .ofUnsignedChar v => bindParameterUnsignedChar st index v
  | .ofSignedChar v => bindParameterSignedChar st index v
  | .ofShort v => bindParameterShort st index v
  | .ofUnsignedShort v => bindParameterUnsignedShort st index v
  | .ofInt v => bindParameterInt st index v
  | .ofUnsignedInt v => bindParameterUnsignedInt st index v
  | .ofLong v => bindParameterLong st index v
  | .ofUnsignedLong v => bindParameterUnsignedLong st index v
  | .ofLongLong v => bindParameterInt64 st index v
  | .ofUnsignedLongLong v => bindParameterUInt64 st index v
  | .ofObject _ => { ret := false, diag := some Diagnostic.objectKindError,
                     state := st }
  | other => { ret := false,
               diag := some (Diagnostic.unsupportedKind other.GetType),
               state := st }

/-! ### Query text (itkSQLQuery.cxx lines 231-267) -/

/-- `SQLQuery::SetQuery(const std::string &queryString)`.  Faithful to the
source, including the second guard: the C++ condition is
`!m_Query.empty() && !queryString.empty() && (!m_Query.compare(queryString) == 0)`,
and since `compare` returns 0 exactly on equal strings,
`(!m_Query.compare(queryString)) == 0` holds exactly when the strings
DIFFER — so the early return (commented "query string isn't changing" in the
source) actually fires when both strings are non-empty and different.
Otherwise the new text is copied in (or cleared when empty) and `Modified()`
is called (not modelled: it only bumps the vtkObject MTime). -/
def setQuery (st : QueryState) (queryString : String) : Bool × QueryState :=
  if st.m_Query = "" ∧ queryString = "" then
    (true, st)
  else if st.m_Query ≠ "" ∧ queryString ≠ "" ∧ st.m_Query ≠ queryString then
    (true, st)
  else if queryString ≠ "" then
    (true, { st with m_Query := queryString })
  else
    (true, { st with m_Query := "" })

/-- `SQLQuery::GetQuery()`: returns `m_Query`. -/
def getQuery (st : QueryState) : String :=
  st.m_Query

/-- `IsActive()` (itkSQLQuery.h line 83): returns the active flag. -/
def isActive (st : QueryState) : Bool :=
  st.m_Active

/-! ### Transactions (itkSQLQuery.h lines 95-97): inline `{ return true; }` -/

/-- `BeginTransaction()`: `{ return true; }`. -/
def beginTransaction (st : QueryState) : Bool × QueryState :=
  (true, st)

/-- `CommitTransaction()`: `{ return true; }`. -/
def commitTransaction (st : QueryState) : Bool × QueryState :=
  (true, st)

/-- `RollbackTransaction()`: `{ return true; }`. -/
def rollbackTransaction (st : QueryState) : Bool × QueryState :=
  (true, st)

/-! ### String escaping (itkSQLQuery.cxx lines 52-74) -/

/-- The character-by-character loop of `SQLQuery::EscapeString`: a single
quote is emitted twice ("Single quotes are escaped by repeating them"),
every other character once. -/
def escapeLoop : List Char → List Char
  | [] => []
  | c :: rest =>
      if c = '\'' then '\'' :: c :: escapeLoop rest
      else c :: escapeLoop rest

/-- `SQLQuery::EscapeString(const std::string &s, bool addSurroundingQuotes)`:
optionally open with a quote, run the loop, optionally close with a quote. -/
def escapeString (s : String) (addSurroundingQuotes : Bool) : String :=
  String.mk ((if addSurroundingQuotes then ['\''] else [])
    ++ escapeLoop s.data
    ++ (if addSurroundingQuotes then ['\''] else []))

/-- Modelled from the spec's words, for comparison with `escapeString`:
"scan input character by character; each single-quote character is emitted
twice (doubled); all other characters are copied unchanged" — the per-
character emission. -/
def specEscapeChar (c : Char) : List Char :=
  if c = '\'' then [c, c] else [c]

/-- Modelled from the spec's words, for comparison with `escapeString`:
the concatenation of the per-character emissions, with "a single-quote
prepended and appended to the result" when the flag is true. -/
def specEscapeString (s : String) (addSurroundingQuotes : Bool) : String :=
  String.mk ((if addSurroundingQuotes then ['\''] else [])
    ++ s.data.flatMap specEscapeChar
    ++ (if addSurroundingQuotes then ['\''] else []))

/-! ### The base-class operation alphabet (for reachability claims) -/

/-- One call to any base-class operation of `SQLQuery`, with its arguments. -/
inductive BaseOp where
  | opSetQuery (s : String)
  | opGetQuery
  | opBindVariant (i : Int) (v : vtkVariant)
  | opBindUnsignedChar (i : Int) (v : Nat)
  | opBindSignedChar (i : Int) (v : Int)
  | opBindUnsignedShort (i : Int) (v : Nat)
  | opBindShort (i : Int) (v : Int)
  | opBindUnsignedInt (i : Int) (v : Nat)
  | opBindInt (i : Int) (v : Int)
  | opBindUnsignedLong (i : Int) (v : Nat)
  | opBindLong (i : Int) (v : Int)
  | opBindUInt64 (i : Int) (v : Nat)
  | opBindInt64 (i : Int) (v : Int)
  | opBindFloat (i : Int) (v : Nat)
  | opBindDouble (i : Int) (v : Nat)
  | opBindCString (i : Int) (v : String)
  | opBindCStringLen (i : Int) (v : String) (n : Nat)
  | opBindStdString (i : Int) (v : String)
  | opBindBlob (i : Int) (bs : List Nat) (n : Nat)
  | opClearBindings
  | opEscapeString (s : String) (q : Bool)
  | opBeginTransaction
  | opCommitTransaction
  | opRollbackTransaction
  deriving Repr

/-- The state transition of one base-class operation (`EscapeString` and
`GetQuery` read no data member and write none). -/
def stepOp (st : QueryState) : BaseOp → QueryState
  | .opSetQuery s => (setQuery st s).2
  | .opGetQuery => st
  | .opBindVariant i v => (bindParameterVariant st i v).state
  | .opBindUnsignedChar i v => (bindParameterUnsignedChar st i v).state
  | .opBindSignedChar i v => (bindParameterSignedChar st i v).state
  | .opBindUnsignedShort i v => (bindParameterUnsignedShort st i v).state
  | .opBindShort i v => (bindParameterShort st i v).state
  | .opBindUnsignedInt i v => (bindParameterUnsignedInt st i v).state
  | .opBindInt i v => (bindParameterInt st i v).state
  | .opBindUnsignedLong i v => (bindParameterUnsignedLong st i v).state
  | .opBindLong i v => (bindParameterLong st i v).state
  | .opBindUInt64 i v => (bindParameterUInt64 st i v).state
  | .opBindInt64 i v => (bindParameterInt64 st i v).state
  | .opBindFloat i v => (bindParameterFloat st i v).state
  | .opBindDouble i v => (bindParameterDouble st i v).state
  | .opBindCString i v => (bindParameterCString st i v).state
  | .opBindCStringLen i v n => (bindParameterCStringLen st i v n).state
  | .opBindStdString i v => (bindParameterStdString st i v).state
  | .opBindBlob i bs n => (bindParameterBlob st i bs n).state
  | .opClearBindings => (clearParameterBindings st).state
  | .opEscapeString _ _ => st
  | .opBeginTransaction => (beginTransaction st).2
  | .opCommitTransaction => (commitTransaction st).2
  | .opRollbackTransaction => (rollbackTransaction st).2

/-- Running a sequence of base-class operations from a fresh object. -/
def runOps (ops : List BaseOp) : QueryState :=
  ops.foldl stepOp SQLQueryNew

/-! ### Helper lemmas -/

/-- The escape loop emits exactly what the spec's per-character rule emits. -/
lemma escapeLoop_eq_flatMap (l : List Char) :
    escapeLoop l = l.flatMap specEscapeChar := by
  induction l with
  | nil => rfl
  | cons c rest ih =>
      by_cases h : c = '\''
      · simp [escapeLoop, specEscapeChar, h, ih]
      · simp [escapeLoop, specEscapeChar, h, ih]

/-- The escape loop doubles the number of single quotes. -/
lemma escapeLoop_count (l : List Char) :
    (escapeLoop l).count '\'' = 2 * l.count '\'' := by
  induction l with
  | nil => rfl
  | cons c rest ih =>
      by_cases h : c = '\''
      · subst h
        simp [escapeLoop, List.count_cons, ih]
        ring
      · simp [escapeLoop, h, List.count_cons, ih]

/-- The escape loop grows the input by one character per single quote. -/
lemma escapeLoop_length (l : List Char) :
    (escapeLoop l).length = l.length + l.count '\'' := by
  induction l with
  | nil => rfl
  | cons c rest ih =>
      by_cases h : c = '\''
      · subst h
        simp [escapeLoop, List.count_cons, ih]
        omega
      · simp [escapeLoop, h, List.count_cons, ih]
        omega

/-- On a quote-free input the escape loop is the identity. -/
lemma escapeLoop_of_no_quote (l : List Char) (h : l.count '\'' = 0) :
    escapeLoop l = l := by
  induction l with
  | nil => rfl
  | cons c rest ih =>
      rw [List.count_cons] at h
      by_cases hc : c = '\''
      · subst hc
        simp at h
      · rw [escapeLoop, if_neg hc, ih]
        simp [hc] at h
        exact h

/-- The escape loop fixes exactly the quote-free inputs. -/
lemma escapeLoop_eq_self_iff (l : List Char) :
    escapeLoop l = l ↔ l.count '\'' = 0 := by
  constructor
  · intro h
    have hlen := congrArg List.length h
    rw [escapeLoop_length] at hlen
    omega
  · exact escapeLoop_of_no_quote l

/-- No base-class operation changes the active flag. -/
lemma stepOp_preserves_active (st : QueryState) (op : BaseOp) :
    (stepOp st op).m_Active = st.m_Active := by
  cases op
  case opSetQuery s =>
    show (setQuery st s).2.m_Active = st.m_Active
    unfold setQuery
    split
    · rfl
    · split
      · rfl
      · split <;> rfl
  case opBindVariant i v => cases v <;> rfl
  all_goals rfl

/-- Folding base-class operations over any start state keeps its flag. -/
lemma foldl_stepOp_active (ops : List BaseOp) (st : QueryState) :
    (ops.foldl stepOp st).m_Active = st.m_Active := by
  induction ops generalizing st with
  | nil => rfl
  | cons op rest ih => rw [List.foldl_cons, ih, stepOp_preserves_active]

/-! ### Claims -/

/-- C1 (evaluation of the code at the failing input): starting from a fresh
object, `SetQuery("a")` stores "a"; the subsequent `SetQuery("b")` returns
`true` yet `GetQuery()` still returns "a", not the new text "b" — the early
return whose comment says "query string isn't changing" fires on a changed
string, so setting different non-empty text does NOT replace the stored
text. -/
theorem setQuery_new_text_dropped :
    (setQuery (setQuery SQLQueryNew "a").2 "b").1 = true ∧
    getQuery (setQuery (setQuery SQLQueryNew "a").2 "b").2 = "a" ∧
    ("a" : String) ≠ "b" := by decide

/-- C2 (counterexample): the blob kind of the dynamic value has no dispatch
arm in `BindParameter(int, vtkVariant)`: at a concrete blob value the
dispatcher does not return the result of the typed blob overload — it falls
into the `default:` branch and emits the type-code diagnostic instead of the
typed overload's diagnostic. -/
theorem bindVariant_blob_hits_default :
    bindParameterVariant SQLQueryNew 0 (vtkVariant.ofBlob [] 0)
        ≠ bindParameterBlob SQLQueryNew 0 [] 0 ∧
    (bindParameterVariant SQLQueryNew 0 (vtkVariant.ofBlob [] 0)).diag
        = some (Diagnostic.unsupportedKind 30) := by decide

/-- C2 (amended): for every placeholder index and every dynamic value of a
kind with a dispatch arm — string, 32/64-bit float, plain char (routed to
the `int` overload by integral promotion, there being no plain-`char`
overload), signed/unsigned 8/16/32/64-bit integers — the variant dispatcher
returns exactly the result of the corresponding typed `BindParameter`;
the blob kind alone falls into the default branch, failing with the
generic type-code diagnostic instead of invoking the typed blob bind. -/
theorem bindVariant_dispatch (st : QueryState) (index : Int) :
    (∀ s, bindParameterVariant st index (vtkVariant.ofString s)
        = bindParameterStdString st index s) ∧
    (∀ b, bindParameterVariant st index (vtkVariant.ofFloat b)
        = bindParameterFloat st index b) ∧
    (∀ b, bindParameterVariant st index (vtkVariant.ofDouble b)
        = bindParameterDouble st index b) ∧
    (∀ c, bindParameterVariant st index (vtkVariant.ofChar c)
        = bindParameterInt st index c) ∧
    (∀ v, bindParameterVariant st index (vtkVariant.ofUnsignedChar v)
        = bindParameterUnsignedChar st index v) ∧
    (∀ v, bindParameterVariant st index (vtkVariant.ofSignedChar v)
        = bindParameterSignedChar st index v) ∧
    (∀ v, bindParameterVariant st index (vtkVariant.ofShort v)
        = bindParameterShort st index v) ∧
    (∀ v, bindParameterVariant st index (vtkVariant.ofUnsignedShort v)
        = bindParameterUnsignedShort st index v) ∧
    (∀ v, bindParameterVariant st index (vtkVariant.ofInt v)
        = bindParameterInt st index v) ∧
    (∀ v, bindParameterVariant st index (vtkVariant.ofUnsignedInt v)
        = bindParameterUnsignedInt st index v) ∧
    (∀ v, bindParameterVariant st index (vtkVariant.ofLong v)
        = bindParameterLong st index v) ∧
    (∀ v, bindParameterVariant st index (vtkVariant.ofUnsignedLong v)
        = bindParameterUnsignedLong st index v) ∧
    (∀ v, bindParameterVariant st index (vtkVariant.ofLongLong v)
        = bindParameterInt64 st index v) ∧
    (∀ v, bindParameterVariant st index (vtkVariant.ofUnsignedLongLong v)
        = bindParameterUInt64 st index v) ∧
    (∀ bs n, bindParameterVariant st index (vtkVariant.ofBlob bs n)
        = { ret := false, diag := some (Diagnostic.unsupportedKind 30),
            state := st }) :=
  ⟨fun _ => rfl, fun _ => rfl, fun _ => rfl, fun _ => rfl, fun _ => rfl,
   fun _ => rfl, fun _ => rfl, fun _ => rfl, fun _ => rfl, fun _ => rfl,
   fun _ => rfl, fun _ => rfl, fun _ => rfl, fun _ => rfl, fun _ _ => rfl⟩

/-- C3: every typed `BindParameter` overload of the base class, and
`ClearParameterBindings`, returns `false` with the "does not support bound
parameters" diagnostic and leaves the state untouched. -/
theorem typed_binds_all_unsupported (st : QueryState) (index : Int) :
    (∀ v, bindParameterUnsignedChar st index v
        = { ret := false, diag := some Diagnostic.noBoundParams, state := st }) ∧
    (∀ v, bindParameterSignedChar st index v
        = { ret := false, diag := some Diagnostic.noBoundParams, state := st }) ∧
    (∀ v, bindParameterUnsignedShort st index v
        = { ret := false, diag := some Diagnostic.noBoundParams, state := st }) ∧
    (∀ v, bindParameterShort st index v
        = { ret := false, diag := some Diagnostic.noBoundParams, state := st }) ∧
    (∀ v, bindParameterUnsignedInt st index v
        = { ret := false, diag := some Diagnostic.noBoundParams, state := st }) ∧
    (∀ v, bindParameterInt st index v
        = { ret := false, diag := some Diagnostic.noBoundParams, state := st }) ∧
    (∀ v, bindParameterUnsignedLong st index v
        = { ret := false, diag := some Diagnostic.noBoundParams, state := st }) ∧
    (∀ v, bindParameterLong st index v
        = { ret := false, diag := some Diagnostic.noBoundParams, state := st }) ∧
    (∀ v, bindParameterUInt64 st index v
        = { ret := false, diag := some Diagnostic.noBoundParams, state := st }) ∧
    (∀ v, bindParameterInt64 st index v
        = { ret := false, diag := some Diagnostic.noBoundParams, state := st }) ∧
    (∀ v, bindParameterFloat st index v
        = { ret := false, diag := some Diagnostic.noBoundParams, state := st }) ∧
    (∀ v, bindParameterDouble st index v
        = { ret := false, diag := some Diagnostic.noBoundParams, state := st }) ∧
    (∀ v, bindParameterCString st index v
        = { ret := false, diag := some Diagnostic.noBoundParams, state := st }) ∧
    (∀ v n, bindParameterCStringLen st index v n
        = { ret := false, diag := some Diagnostic.noBoundParams, state := st }) ∧
    (∀ v, bindParameterStdString st index v
        = { ret := false, diag := some Diagnostic.noBoundParams, state := st }) ∧
    (∀ bs n, bindParameterBlob st index bs n
        = { ret := false, diag := some Diagnostic.noBoundParams, state := st }) ∧
    clearParameterBindings st
        = { ret := false, diag := some Diagnostic.noBoundParams, state := st } :=
  ⟨fun _ => rfl, fun _ => rfl, fun _ => rfl, fun _ => rfl, fun _ => rfl,
   fun _ => rfl, fun _ => rfl, fun _ => rfl, fun _ => rfl, fun _ => rfl,
   fun _ => rfl, fun _ => rfl, fun _ => rfl, fun _ _ => rfl, fun _ => rfl,
   fun _ _ => rfl, rfl⟩

/-- C4: `EscapeString` computes exactly the left-to-right scan the spec
describes (each single quote doubled, other characters unchanged, one quote
prepended and appended when the flag is set); as a pure function of its two
arguments it is deterministic.  In particular the three spec examples hold
(written with character lists so the quote characters are explicit):
EscapeString("O'Brien", true) = "'O''Brien'", EscapeString("abc", false) =
"abc", EscapeString("", true) = "''". -/
theorem escapeString_correct :
    (∀ (s : String) (q : Bool), escapeString s q = specEscapeString s q) ∧
    escapeString (String.mk ['O', '\'', 'B', 'r', 'i', 'e', 'n']) true
      = String.mk ['\'', 'O', '\'', '\'', 'B', 'r', 'i', 'e', 'n', '\''] ∧
    escapeString "abc" false = "abc" ∧
    escapeString "" true = String.mk ['\'', '\''] := by
  refine ⟨?_, by decide, by decide, by decide⟩
  intro s q
  unfold escapeString specEscapeString
  rw [escapeLoop_eq_flatMap]

/-- C5: binding the invalid/null dynamic value returns `true`, emits no
diagnostic (so no typed overload, all of which emit one, was invoked), and
leaves the state untouched. -/
theorem bindVariant_null_noop (st : QueryState) (index : Int) :
    bindParameterVariant st index vtkVariant.invalid
      = { ret := true, diag := none, state := st } := rfl

/-- C6: binding a dynamic value of the object kind — the kind with no typed
overload — fails with the dedicated VTK_OBJECT diagnostic, which is distinct
from the generic "does not support bound parameters" diagnostic, and leaves
the state untouched. -/
theorem bindVariant_object_distinct (st : QueryState) (index : Int)
    (oid : Nat) :
    bindParameterVariant st index (vtkVariant.ofObject oid)
        = { ret := false, diag := some Diagnostic.objectKindError,
            state := st } ∧
    (bindParameterVariant st index (vtkVariant.ofObject oid)).diag
        ≠ some Diagnostic.noBoundParams :=
  ⟨rfl, by simp [bindParameterVariant]⟩

/-- C7: `EscapeString(·, false)` fixes exactly the quote-free strings, it
doubles the single-quote count of every string, and applying it twice
quadruples that count — there is no double-processing guard. -/
theorem escapeString_requote_doubles (s : String) :
    (escapeString s false = s ↔ s.data.count '\'' = 0) ∧
    (escapeString s false).data.count '\'' = 2 * s.data.count '\'' ∧
    (escapeString (escapeString s false) false).data.count '\''
      = 4 * s.data.count '\'' := by
  have hdata : ∀ t : String, (escapeString t false).data = escapeLoop t.data := by
    intro t
    simp [escapeString]
  refine ⟨?_, ?_, ?_⟩
  · constructor
    · intro h
      have := congrArg String.data h
      rw [hdata] at this
      exact (escapeLoop_eq_self_iff s.data).mp this
    · intro h
      have : escapeLoop s.data = s.data := escapeLoop_of_no_quote s.data h
      show String.mk _ = s
      simp [this]
  · rw [hdata, escapeLoop_count]
  · rw [hdata, hdata, escapeLoop_count, escapeLoop_count]
    ring

/-- C8: the three base-class transaction methods return `true` and leave the
whole state (query text, active flag, database reference) unchanged. -/
theorem transactions_noop_success (st : QueryState) :
    beginTransaction st = (true, st) ∧ commitTransaction st = (true, st) ∧
    rollbackTransaction st = (true, st) :=
  ⟨rfl, rfl, rfl⟩

/-- C9: `SetQuery` returns `true` on every path — for every prior state and
every input string it reports success, despite the `bool` return type being
documented as a success/failure indicator. -/
theorem setQuery_always_succeeds (st : QueryState) (queryString : String) :
    (setQuery st queryString).1 = true := by
  unfold setQuery
  split
  · rfl
  · split
    · rfl
    · split <;> rfl

/-- C10: the active flag is `false` after construction, every base-class
operation preserves it, and therefore `IsActive()` returns `false` in every
state reachable through base-class operations alone. -/
theorem active_flag_invariant :
    SQLQueryNew.m_Active = false ∧
    (∀ (st : QueryState) (op : BaseOp),
      (stepOp st op).m_Active = st.m_Active) ∧
    (∀ ops : List BaseOp, isActive (runOps ops) = false) := by
  refine ⟨rfl, stepOp_preserves_active, ?_⟩
  intro ops
  show (runOps ops).m_Active = false
  rw [runOps, foldl_stepOp_active]
  rfl

end SQLQuerySpec
